import Mathlib

/-!
Shallow embedding of the Airmax webhook service (FareHarbor → MakerSuite
round-trip correlation engine), translated from `src/app/` of the repository:
`storage.py`, `config.py`, `transform.py`, `slack_notifier.py`,
`integrations.py`.  Modules `app/helpers.py` and `app/api_client.py` are not
part of the provided sources: their functions are taken as environment
parameters, or — where a claim depends on their behaviour — modelled from the
specification (each such definition says so in its doc comment).  Time is
modelled as a natural number of seconds (`datetime.now()` snapshots become an
explicit `now` parameter); Python dictionaries become association lists with
insertion-order semantics.
-/

namespace Airmax

/-! ### Booking payloads (FareHarbor webhook `booking` objects)

Only the fields the handlers read are modelled: `pk`, `availability`
(`start_at`, `item.pk`), `custom_field_values` (name/value/display_value),
`customers`, and `contact` (email/phone). -/

structure CustomField where
  name : String
  value : String
  display_value : String
deriving Repr, DecidableEq

structure Item where
  pk : Int
deriving Repr, DecidableEq

structure Availability where
  start_at : String
  item : Option Item
deriving Repr, DecidableEq

structure Customer where
  custom_field_values : List CustomField
deriving Repr, DecidableEq

structure Contact where
  email : String
  phone : String
deriving Repr, DecidableEq

structure Booking where
  pk : Option Int
  availability : Option Availability
  custom_field_values : List CustomField
  customers : List Customer
  contact : Option Contact
deriving Repr, DecidableEq

/-! ### config.py -/

/-- `ROUND_TRIP_CLEANUP_HOURS = 1` (config.py line 24). -/
def ROUND_TRIP_CLEANUP_HOURS : Nat := 1

/-- The retention window `timedelta(hours=ROUND_TRIP_CLEANUP_HOURS)`,
expressed in seconds (our unit of time). -/
def cleanupMaxAgeSeconds : Nat := ROUND_TRIP_CLEANUP_HOURS * 3600

/-! ### storage.py — the correlation store

`round_trip_bookings` is a Python dict keyed by `order_display_id`, whose
values are `{"booking_data": ..., "flights": ..., "first_received_at": iso}`.
We model the dict as an association list with Python-dict semantics:
assignment replaces in place when the key is present and appends otherwise,
`del` removes the (unique) entry. -/

structure StoredBookingInfo where
  booking_data : Booking
  flights : List Int
  first_received_at : Nat
deriving Repr, DecidableEq

abbrev Store := List (String × StoredBookingInfo)

/-- Python dict assignment `d[k] = v`: overwrite in place if present,
append otherwise. -/
def dictInsert (s : Store) (k : String) (v : StoredBookingInfo) : Store :=
  if s.any (fun p => p.1 == k) then
    s.map (fun p => if p.1 == k then (k, v) else p)
  else s ++ [(k, v)]

/-- `get_round_trip_booking` (storage.py lines 84-88): `dict.get`. -/
def get_round_trip_booking (s : Store) (k : String) : Option StoredBookingInfo :=
  (s.find? (fun p => p.1 == k)).map Prod.snd

/-- `has_round_trip_booking` (storage.py lines 99-103): `k in dict`. -/
def has_round_trip_booking (s : Store) (k : String) : Bool :=
  (get_round_trip_booking s k).isSome

/-- `store_round_trip_booking` (storage.py lines 70-81): records the leg
payload, its resolved flights and `first_received_at = datetime.now()`. -/
def store_round_trip_booking (s : Store) (k : String) (b : Booking)
    (flights : List Int) (now : Nat) : Store :=
  dictInsert s k { booking_data := b, flights := flights, first_received_at := now }

/-- `remove_round_trip_booking` (storage.py lines 91-96):
`if k in dict: del dict[k]`.  A dict holds at most one entry per key, so the
deletion is the filter below. -/
def remove_round_trip_booking (s : Store) (k : String) : Store :=
  s.filter (fun p => !(p.1 == k))

/-- `cleanup_old_bookings` (storage.py lines 39-67): collect every key whose
`now - first_received_at > timedelta(hours=ROUND_TRIP_CLEANUP_HOURS)` and
delete them.  (`first_received_at` is always set by
`store_round_trip_booking`, so the missing-timestamp guard of the source is
vacuous for any record this code can create.) -/
def cleanup_old_bookings (s : Store) (now : Nat) : Store :=
  s.filter (fun p => !(decide (now - p.2.first_received_at > cleanupMaxAgeSeconds)))

/-- The core invariant of the correlation store: at most one `PendingBooking`
per `order_id`, i.e. the association list's keys are pairwise distinct. -/
def storeKeysNodup (s : Store) : Prop := (s.map Prod.fst).Nodup

/-! ### Idempotency ledger

`is_single_trip_processed` / `mark_single_trip_processed` are imported from
`app.storage` by `integrations.py` but are absent from the provided
`storage.py`. -/

abbrev Ledger := List String

/-- Modelled from the spec: `is_single_trip_processed` is missing from
`src/app/storage.py`; per §4.3 of the spec it is the ledger membership test
`is_marked(key) -> bool`. -/
def is_single_trip_processed (l : Ledger) (k : String) : Bool := l.contains k

/-- Modelled from the spec: `mark_single_trip_processed` is missing from
`src/app/storage.py`; per §4.3 of the spec it is `mark(key) -> void`,
recording the key in the ledger. -/
def mark_single_trip_processed (l : Ledger) (k : String) : Ledger := k :: l

/-! ### transform.py — field mapping

`transform.py` imports `get_country_iso3`, `clean_name`, `clean_phone` and
`clean_alphanumeric` from `app/helpers.py`, which is not among the provided
sources; they are pure string cleaners and are taken as parameters. -/

/-- The pure string-cleaning helpers of `app/helpers.py` (file not in the
provided sources), taken as parameters of the transformation. -/
structure Helpers where
  clean_name : String → String
  clean_phone : String → String
  clean_alphanumeric : String → String
  get_country_iso3 : String → String

/-- Python dict comprehension `{f["name"]: f["value"] for f in fs}` followed
by `.get(key, dflt)`: the last field with a matching name wins. -/
def lookupFieldValueD (fs : List CustomField) (key dflt : String) : String :=
  match fs.reverse.find? (fun f => f.name == key) with
  | some f => f.value
  | none => dflt

/-- Same as `lookupFieldValueD` but over `display_value`
(`{f["name"]: f["display_value"] for f in fs}.get(key, dflt)`). -/
def lookupFieldDisplayD (fs : List CustomField) (key dflt : String) : String :=
  match fs.reverse.find? (fun f => f.name == key) with
  | some f => f.display_value
  | none => dflt

/-- Whether the first character list starts the second. -/
def listStartsWith : List Char → List Char → Bool
  | [], _ => true
  | _ :: _, [] => false
  | a :: as, b :: bs => a == b && listStartsWith as bs

/-- Substring test over character lists (Python `needle in hay`). -/
def listContainsSub (needle : List Char) : List Char → Bool
  | [] => needle.isEmpty
  | c :: t => listStartsWith needle (c :: t) || listContainsSub needle t

/-- Python `"sub" in s`. -/
def strContainsSub (needle hay : String) : Bool :=
  listContainsSub needle.toList hay.toList

/-- English month names, as in `calendar.month_name[1:]`. -/
def monthNames : List String :=
  ["January", "February", "March", "April", "May", "June", "July",
   "August", "September", "October", "November", "December"]

/-- English month abbreviations, as in `calendar.month_abbr[1:]`. -/
def monthAbbrs : List String :=
  ["Jan", "Feb", "Mar", "Apr", "May", "Jun", "Jul", "Aug", "Sep", "Oct",
   "Nov", "Dec"]

/-- Case-insensitive month-name / abbreviation matching used by
`_parse_month` (transform.py lines 169-178). -/
def parseMonthByName (m : String) : Option Nat :=
  let ml := m.toLower
  match monthNames.findIdx? (fun n => n.toLower == ml) with
  | some i => some (i + 1)
  | none => (monthAbbrs.findIdx? (fun n => n.toLower == ml)).map (· + 1)

/-- `_parse_month` (transform.py lines 151-180): try the stripped string as
an integer in `1..12`, then as a full month name, then as an abbreviation.
(Python `int()` itself strips whitespace.) -/
def parse_month (month : String) : Option Nat :=
  if month = "" then none
  else
    let m := month.trim
    match m.trim.toInt? with
    | some n => if 1 ≤ n ∧ n ≤ 12 then some n.toNat else parseMonthByName m
    | none => parseMonthByName m

/-- Gregorian leap year, as `datetime` validates. -/
def isLeapYear (y : Nat) : Bool :=
  (y % 4 == 0 && y % 100 != 0) || y % 400 == 0

/-- Days in a month of a given year, as `datetime` validates. -/
def daysInMonth (y m : Nat) : Nat :=
  if m == 2 then (if isLeapYear y then 29 else 28)
  else if m == 4 || m == 6 || m == 9 || m == 11 then 30
  else 31

/-- Left-pad a number with zeros to the given width (`strftime` padding). -/
def padNum (width n : Nat) : String :=
  let s := toString n
  String.mk (List.replicate (width - s.length) '0') ++ s

/-- `_convert_date_format` (transform.py lines 130-148): empty components
give `""`; the month is parsed by `_parse_month`; `datetime(year, month,
day)` validity (year `1..9999`, day within the month) is required, else the
exception handler yields `""`; the result is `%Y-%m-%d`. -/
def convert_date_format (year month day : String) : String :=
  if year = "" ∨ month = "" ∨ day = "" then ""
  else
    match parse_month month with
    | none => ""
    | some mn =>
      match year.trim.toInt?, day.trim.toInt? with
      | some y, some d =>
        if 1 ≤ y ∧ y ≤ 9999 ∧ 1 ≤ d ∧ d ≤ (daysInMonth y.toNat mn : Int) then
          padNum 4 y.toNat ++ "-" ++ padNum 2 mn ++ "-" ++ padNum 2 d.toNat
        else ""
      | _, _ => ""

/-- One entry of the MakerSuite `Passengers` list (transform.py lines
79-127). -/
structure Passenger where
  FirstName : String
  LastName : String
  DateOfBirth : String
  Gender : String
  Email : String
  Phone : String
  DocumentNumber : String
  DocumentType : String
  DocumentExpiry : String
  DocumentCountry : String
  Weight : Nat
  BahamasStay : String
  AddressStreet : String
  AddressCity : String
  AddressState : String
  AddressZIPCode : String
deriving Repr, DecidableEq

/-- The body of the `for customer in booking_data.get("customers", [])`
loop of `_transform_passengers` (transform.py lines 84-125):
customer-level fields are read by `display_value`, booking-level address
fields by `value`. -/
def transform_passenger (h : Helpers) (b : Booking) (c : Customer) : Passenger :=
  let cf := fun key => lookupFieldDisplayD c.custom_field_values key ""
  let bf := fun key => lookupFieldValueD b.custom_field_values key ""
  { FirstName := h.clean_name (cf "Passenger First Name")
    LastName := h.clean_name (cf "Passenger Last Name")
    DateOfBirth := convert_date_format (cf "Date of Birth - Year")
      (cf "Date of Birth - Month") (cf "Date of Birth - Day")
    Gender := if strContainsSub "Male" (cf "Passenger Sex") then "M" else "F"
    Email := (b.contact.map Contact.email).getD ""
    Phone := h.clean_phone ((b.contact.map Contact.phone).getD "")
    DocumentNumber := h.clean_alphanumeric (cf "Passport Number")
    DocumentType := "P"
    DocumentExpiry := convert_date_format (cf "Passport Expiration Date - Year")
      (cf "Passport Expiration Date - Month") (cf "Passport Expiration Date - Day")
    DocumentCountry := h.get_country_iso3 (cf "Citizenship")
    Weight := 185
    BahamasStay := lookupFieldDisplayD c.custom_field_values "Bahamas Hotel" "BHS"
    AddressStreet := bf "US Address – Street"
    AddressCity := bf "US Address – City"
    AddressState := bf "US Address – State"
    AddressZIPCode := bf "US Address – Zip Code" }

/-- `_transform_passengers` (transform.py lines 79-127). -/
def transform_passengers (h : Helpers) (b : Booking) : List Passenger :=
  b.customers.map (transform_passenger h b)

/-- First maximal digit run of a character list (`re.findall(r'\d+', s)[0]`). -/
def firstDigitRunAux : List Char → Option (List Char)
  | [] => none
  | c :: t =>
    if c.isDigit then some (c :: t.takeWhile Char.isDigit)
    else firstDigitRunAux t

/-- Value of a digit list read in base 10. -/
def digitsToNat (cs : List Char) : Nat :=
  cs.foldl (fun a c => a * 10 + (c.toNat - 48)) 0

/-- First number occurring in a string, if any. -/
def firstDigitRun (s : String) : Option Nat :=
  (firstDigitRunAux s.toList).map digitsToNat

/-- The iteration items of `{f["name"]: f["value"] for f in fs}.items()`:
names in first-occurrence order, each mapped to its last value. -/
def bookingFieldItems (fs : List CustomField) : List (String × String) :=
  ((fs.map (fun f => f.name)).eraseDups).map
    (fun n => (n, lookupFieldValueD fs n ""))

/-- `_extract_depart_flights` (transform.py lines 46-76): for each
booking-level custom field whose name contains `"Flight Number"`, take the
first number in the name, else the stripped value if it parses as an
integer; if nothing was found, fall back to `availability.item.pk`. -/
def extract_depart_flights (b : Booking) : List Int :=
  let step := fun (acc : List Int) (p : String × String) =>
    if strContainsSub "Flight Number" p.1 then
      match firstDigitRun p.1 with
      | some n => acc ++ [(n : Int)]
      | none =>
        if p.2.trim ≠ "" then
          match p.2.trim.toInt? with
          | some v => acc ++ [v]
          | none => acc
        else acc
    else acc
  let depart := (bookingFieldItems b.custom_field_values).foldl step []
  if depart.isEmpty then
    match b.availability with
    | some av =>
      match av.item with
      | some it => [it.pk]
      | none => []
    | none => []
  else depart

/-- The payload sent to the MakerSuite `CreateBooking` endpoint
(transform.py lines 31-37). -/
structure MakerSuitePayload where
  DepartFlights : List Int
  ReturnFlights : List Int
  Passengers : List Passenger
  IsDepartFirstClass : Bool
  IsReturnFirstClass : Bool
deriving Repr, DecidableEq

/-- `transform_booking_data` (transform.py lines 11-43): `None` flight
arguments mean "not passed" (`depart_flights` defaults to extraction from
the booking, `return_flights` to `[]`). -/
def transform_booking_data (h : Helpers) (b : Booking)
    (depart_flights return_flights : Option (List Int)) : MakerSuitePayload :=
  let depart := match depart_flights with
    | some d => d
    | none => extract_depart_flights b
  let ret := return_flights.getD []
  { DepartFlights := depart
    ReturnFlights := ret
    Passengers := transform_passengers h b
    IsDepartFirstClass := false
    IsReturnFirstClass := false }

/-! ### slack_notifier.py — fire-and-forget operator notifications -/

/-- The arguments of one `send_slack_notification` call (slack_notifier.py
lines 12-19).  The attachment built from them (lines 38-129) is pure
formatting of these same arguments and is left to the delivery oracle. -/
structure SlackCall where
  status : String
  message : String
  booking_data : Option Booking
  error : Option String
  order_id : Option String
  booking_type : Option String
deriving Repr, DecidableEq

/-- The Slack delivery environment: the configured `SLACK_WEBHOOK_URL`
(config.py line 27; `""` when unset) and the HTTP POST outcome —
`.ok code` for a response with that status code, `.error e` for a raised
exception (timeout or otherwise). -/
structure SlackEnv where
  webhook_url : String
  post : SlackCall → Except String Nat

/-- `send_slack_notification` (slack_notifier.py lines 12-157): skip and
return `false` when the webhook URL is unconfigured; return `true` exactly
on a 200 response; any other status code, a timeout, or any exception
yields `false`. -/
def send_slack_notification (env : SlackEnv) (call : SlackCall) : Bool :=
  if env.webhook_url = "" then false
  else
    match env.post call with
    | .ok code => code == 200
    | .error _ => false

/-- `notify_booking_success` (slack_notifier.py lines 160-177). -/
def notify_booking_success_call (booking_data : Booking)
    (order_id : Option String) (booking_type : String) : SlackCall :=
  { status := "success"
    message := "✅ Booking successfully sent to Airmax API"
    booking_data := some booking_data
    error := none
    order_id := order_id
    booking_type := some booking_type }

/-- `notify_booking_error` (slack_notifier.py lines 180-198). -/
def notify_booking_error_call (booking_data : Booking) (error : String)
    (order_id : Option String) (booking_type : String) : SlackCall :=
  { status := "error"
    message := "❌ Failed to send booking to Airmax API"
    booking_data := some booking_data
    error := some error
    order_id := order_id
    booking_type := some booking_type }

/-- `notify_booking_warning` (slack_notifier.py lines 201-216). -/
def notify_booking_warning_call (message : String)
    (booking_data : Option Booking) (order_id : Option String)
    (booking_type : Option String) : SlackCall :=
  { status := "warning"
    message := "⚠️ " ++ message
    booking_data := booking_data
    error := error_value
    order_id := order_id
    booking_type := booking_type }
where error_value : Option String := none

/-! ### integrations.py — the correlation engine

`integrations.py` imports from `app/helpers.py` (not in the provided
sources) the classification function `get_order_display_id`, the external
lookup `get_flight_identifiers_from_api` and the directional tie-break
`determine_flight_directions`, and from `app/api_client.py` (also absent)
the downstream call `send_to_makersuite_api`.  Lookup and forward are
effectful collaborators and live in the environment; the tie-break is
modelled from the spec below. -/

/-- The result dictionary of `send_to_makersuite_api`.  Modelled from the
spec: `app/api_client.py` is not in the provided sources; per §6 the forward
returns `{ success: bool, response | error }`. -/
structure ApiResult where
  success : Bool
  response : String
  error : String
deriving Repr, DecidableEq

/-- The effectful collaborators consumed by the handlers, plus the
`datetime.now()` clock.  `get_order_display_id` returns the correlation key
or nothing (Python `None`); the lookup and the forward may raise
(`.error`). -/
structure Env where
  get_order_display_id : Booking → Option String
  get_flight_identifiers_from_api : Booking → Except String (List Int)
  send_to_makersuite_api : MakerSuitePayload → Except String ApiResult
  helpers : Helpers
  now : Nat

/-- The chronological indicator of a leg used by the directional
tie-break: its scheduled start. -/
def legStartAt (b : Booking) : String :=
  (b.availability.map Availability.start_at).getD ""

/-- Strict lexicographic order on character lists, by code point. -/
def charListLt : List Char → List Char → Bool
  | _, [] => false
  | [], _ :: _ => true
  | a :: as, b :: bs =>
    a.toNat < b.toNat || (a.toNat == b.toNat && charListLt as bs)

/-- Strict lexicographic order on strings (ISO-8601 timestamps compare
chronologically under it). -/
def strLtB (x y : String) : Bool := charListLt x.toList y.toList

/-- Modelled from the spec: `determine_flight_directions` lives in
`app/helpers.py`, which is not in the provided sources.  Per §4.4 the rule
is a deterministic, total comparison of the two legs' derived chronological
indicators, with ties defaulting to the first-stored leg as outbound: the
incoming leg becomes the depart leg only when it is scheduled strictly
earlier than the stored leg. -/
def determine_flight_directions (existing_flights current_flights : List Int)
    (existing_booking incoming_booking : Booking) : List Int × List Int :=
  if strLtB (legStartAt incoming_booking) (legStartAt existing_booking) then
    (current_flights, existing_flights)
  else
    (existing_flights, current_flights)

/-- The JSON responses `_process_round_trip_booking` can return
(integrations.py lines 92-96, 136-142, 199-206, 220-227, 270-276). -/
inductive RTResponse where
  | missingOrderId
  | storageError
  | mergedSuccess (response : String)
  | mergedFailure (error : String)
  | storedAwaiting
deriving Repr, DecidableEq

/-- The observable outcome of one `_process_round_trip_booking` call:
its return value (`.error e` when an exception escapes the handler — the
route-level `except` in `receive_booking_webhook` catches it), the store
left behind, and the collaborator calls made, in order.  Each notification
is recorded with the boolean `send_slack_notification` returned (the
handlers discard it). -/
structure RTOutcome where
  result : Except String RTResponse
  store : Store
  lookups : List Booking
  forwards : List MakerSuitePayload
  notifications : List (SlackCall × Bool)
deriving Repr

/-- `_process_round_trip_booking` (integrations.py lines 84-276), as a
state-transition function.  `order_id` is falsy for Python `None` or `""`
(line 90).  The `async with order_lock` body runs without interleaving for
a given order id, so it is translated sequentially.  The `try ... finally`
of lines 147-231 is rendered by performing `remove_round_trip_booking` on
every exit path of the merge branch. -/
def process_round_trip_booking (env : Env) (slack : SlackEnv) (st : Store)
    (b : Booking) : RTOutcome :=
  let order_id := (env.get_order_display_id b).getD ""
  if order_id = "" then
    { result := .ok .missingOrderId, store := st, lookups := [],
      forwards := [], notifications := [] }
  else if has_round_trip_booking st order_id then
    match get_round_trip_booking st order_id with
    | none =>
      -- dead branch: `has` just observed the key (no await separates them)
      { result := .ok .storageError, store := st, lookups := [],
        forwards := [], notifications := [] }
    | some existing_booking_info =>
      let existing_booking := existing_booking_info.booking_data
      match env.get_flight_identifiers_from_api existing_booking with
      | .error e =>
        { result := .error e, store := remove_round_trip_booking st order_id,
          lookups := [existing_booking], forwards := [], notifications := [] }
      | .ok existing_flights =>
        match env.get_flight_identifiers_from_api b with
        | .error e =>
          { result := .error e, store := remove_round_trip_booking st order_id,
            lookups := [existing_booking, b], forwards := [],
            notifications := [] }
        | .ok current_flights =>
          let df := determine_flight_directions existing_flights
            current_flights existing_booking b
          let transformed_data := transform_booking_data env.helpers
            existing_booking (some df.1) (some df.2)
          match env.send_to_makersuite_api transformed_data with
          | .error e =>
            { result := .error e,
              store := remove_round_trip_booking st order_id,
              lookups := [existing_booking, b],
              forwards := [transformed_data], notifications := [] }
          | .ok api_result =>
            if api_result.success then
              let call := notify_booking_success_call existing_booking
                (some order_id) "round_trip"
              { result := .ok (.mergedSuccess api_result.response),
                store := remove_round_trip_booking st order_id,
                lookups := [existing_booking, b],
                forwards := [transformed_data],
                notifications := [(call, send_slack_notification slack call)] }
            else
              let call := notify_booking_error_call existing_booking
                api_result.error (some order_id) "round_trip"
              { result := .ok (.mergedFailure api_result.error),
                store := remove_round_trip_booking st order_id,
                lookups := [existing_booking, b],
                forwards := [transformed_data],
                notifications := [(call, send_slack_notification slack call)] }
  else
    let cleaned := cleanup_old_bookings st env.now
    match env.get_flight_identifiers_from_api b with
    | .error e =>
      { result := .error e, store := cleaned, lookups := [b],
        forwards := [], notifications := [] }
    | .ok flights =>
      let st2 := store_round_trip_booking cleaned order_id b flights env.now
      let call := notify_booking_warning_call
        "Round trip booking received and stored. Waiting for second booking."
        (some b) (some order_id) (some "round_trip")
      { result := .ok .storedAwaiting, store := st2, lookups := [b],
        forwards := [],
        notifications := [(call, send_slack_notification slack call)] }

/-- The JSON responses `_process_single_trip_booking` can return
(integrations.py lines 310-314, 346-350, 359-363). -/
inductive SingleResponse where
  | duplicateSkipped
  | forwardedSuccess (response : String)
  | forwardedFailure (error : String)
deriving Repr, DecidableEq

/-- The observable outcome of one `_process_single_trip_booking` call. -/
structure SingleOutcome where
  result : Except String SingleResponse
  ledger : Ledger
  lookups : List Booking
  forwards : List MakerSuitePayload
  notifications : List (SlackCall × Bool)
deriving Repr

/-- The idempotency key of a single-leg booking (integrations.py lines
289-299): prefer `f"single_{booking_pk}_{start_at}"` when `booking.pk` is
truthy, fall back to `f"single_item_{item_pk}_{start_at}"` when both the
item pk and `start_at` are truthy, else `None`.  (Python truthiness: `None`
and `0` are falsy for the pks, `""` for `start_at`.) -/
def compute_single_booking_id (b : Booking) : Option String :=
  let start_at := (b.availability.map Availability.start_at).getD ""
  let item_pk := (b.availability.bind Availability.item).map Item.pk
  let fallback :=
    match item_pk with
    | some ip =>
      if ip ≠ 0 ∧ start_at ≠ "" then
        some ("single_item_" ++ toString ip ++ "_" ++ start_at)
      else none
    | none => none
  match b.pk with
  | some pk =>
    if pk ≠ 0 then some ("single_" ++ toString pk ++ "_" ++ start_at)
    else fallback
  | none => fallback

/-- The body of `_process_single_trip_booking` after the duplicate check
(integrations.py lines 316-363): resolve flights, transform, forward, and
mark the ledger only on a successful forward. -/
def single_trip_forward_path (env : Env) (slack : SlackEnv) (ledger : Ledger)
    (b : Booking) (booking_id : Option String) : SingleOutcome :=
  match env.get_flight_identifiers_from_api b with
  | .error e =>
    { result := .error e, ledger := ledger, lookups := [b], forwards := [],
      notifications := [] }
  | .ok depart_flights =>
    let transformed_data := transform_booking_data env.helpers b
      (some depart_flights) none
    match env.send_to_makersuite_api transformed_data with
    | .error e =>
      { result := .error e, ledger := ledger, lookups := [b],
        forwards := [transformed_data], notifications := [] }
    | .ok api_result =>
      if api_result.success then
        let ledger2 := match booking_id with
          | some bid => mark_single_trip_processed ledger bid
          | none => ledger
        let call := notify_booking_success_call b none "single_trip"
        { result := .ok (.forwardedSuccess api_result.response),
          ledger := ledger2, lookups := [b], forwards := [transformed_data],
          notifications := [(call, send_slack_notification slack call)] }
      else
        let call := notify_booking_error_call b api_result.error none
          "single_trip"
        { result := .ok (.forwardedFailure api_result.error),
          ledger := ledger, lookups := [b], forwards := [transformed_data],
          notifications := [(call, send_slack_notification slack call)] }

/-- `_process_single_trip_booking` (integrations.py lines 279-363):
duplicate check against the ledger, then the forward path. -/
def process_single_trip_booking (env : Env) (slack : SlackEnv)
    (ledger : Ledger) (b : Booking) : SingleOutcome :=
  match compute_single_booking_id b with
  | some bid =>
    if is_single_trip_processed ledger bid then
      { result := .ok .duplicateSkipped, ledger := ledger, lookups := [],
        forwards := [], notifications := [] }
    else single_trip_forward_path env slack ledger b (some bid)
  | none => single_trip_forward_path env slack ledger b none

/-! ### Concrete fixtures used by witnesses and counterexamples -/

/-- Identity string cleaners: a concrete instance of the `app/helpers.py`
cleaning functions. -/
def idHelpers : Helpers :=
  { clean_name := id, clean_phone := id, clean_alphanumeric := id,
    get_country_iso3 := id }

/-- A booking with every optional field empty. -/
def emptyBooking : Booking :=
  { pk := none, availability := none, custom_field_values := [],
    customers := [], contact := none }

/-- A successful downstream response. -/
def okApiResult : ApiResult := { success := true, response := "ok", error := "" }

/-- An environment whose classifier resolves no order id. -/
def trivialEnv : Env :=
  { get_order_display_id := fun _ => none,
    get_flight_identifiers_from_api := fun _ => .ok [],
    send_to_makersuite_api := fun _ => .ok okApiResult,
    helpers := idHelpers,
    now := 0 }

/-- An unconfigured Slack environment. -/
def noSlack : SlackEnv := { webhook_url := "", post := fun _ => .ok 200 }

/-- The stored first leg of order `ORD-1` (scheduled on Jan 1). -/
def firstLeg : Booking :=
  { pk := some 1,
    availability := some { start_at := "2024-01-01T10:00:00", item := some { pk := 7 } },
    custom_field_values := [], customers := [], contact := none }

/-- The later-arriving second leg of order `ORD-1` (scheduled on Jan 2). -/
def secondLeg : Booking :=
  { pk := some 2,
    availability := some { start_at := "2024-01-02T10:00:00", item := some { pk := 8 } },
    custom_field_values := [], customers := [], contact := none }

/-- A store holding the first leg of `ORD-1` with cached flights `[101]`. -/
def ord1Store : Store :=
  [("ORD-1", { booking_data := firstLeg, flights := [101], first_received_at := 0 })]

/-- An environment for order `ORD-1`: the lookup returns `[999]` for the
stored leg (differing from its cached `[101]`) and `[202]` for the second
leg; the forward succeeds. -/
def ord1Env : Env :=
  { get_order_display_id := fun _ => some "ORD-1",
    get_flight_identifiers_from_api := fun b =>
      .ok (if b.pk == some 1 then [999] else [202]),
    send_to_makersuite_api := fun _ => .ok okApiResult,
    helpers := idHelpers,
    now := 0 }

/-- `ord1Env` with the clock advanced far past the retention window. -/
def staleEnv : Env :=
  { get_order_display_id := fun _ => some "ORD-1",
    get_flight_identifiers_from_api := fun b =>
      .ok (if b.pk == some 1 then [999] else [202]),
    send_to_makersuite_api := fun _ => .ok okApiResult,
    helpers := idHelpers,
    now := 999999 }

/-- A stored record for order `ORD-2`, first seen at time 1000. -/
def ord2Info : StoredBookingInfo :=
  { booking_data := emptyBooking, flights := [101], first_received_at := 1000 }

/-- A one-record store holding `ORD-2`. -/
def ord2Store : Store := [("ORD-2", ord2Info)]

/-- A single-leg booking with a resolvable idempotency key. -/
def singleBooking : Booking :=
  { pk := some 5,
    availability := some { start_at := "2024-03-03T09:00:00", item := some { pk := 3 } },
    custom_field_values := [], customers := [], contact := none }

/-- An environment whose lookup and forward both succeed. -/
def singleEnv : Env :=
  { get_order_display_id := fun _ => none,
    get_flight_identifiers_from_api := fun _ => .ok [77],
    send_to_makersuite_api := fun _ => .ok okApiResult,
    helpers := idHelpers,
    now := 0 }

/-! ### Basic store lemmas -/

theorem dictInsert_keys_of_mem (s : Store) (k : String) (v : StoredBookingInfo)
    (h : s.any (fun p => p.1 == k) = true) :
    (dictInsert s k v).map Prod.fst = s.map Prod.fst := by
  unfold dictInsert
  rw [if_pos h, List.map_map]
  apply List.map_congr_left
  intro p _
  simp only [Function.comp_apply]
  split
  · next hpk => exact (beq_iff_eq.mp (by simpa using hpk)).symm
  · rfl

theorem storeKeysNodup_dictInsert (s : Store) (k : String) (v : StoredBookingInfo)
    (h : storeKeysNodup s) : storeKeysNodup (dictInsert s k v) := by
  unfold storeKeysNodup
  by_cases hmem : s.any (fun p => p.1 == k) = true
  · rw [dictInsert_keys_of_mem s k v hmem]; exact h
  · unfold dictInsert
    rw [if_neg hmem, List.map_append]
    simp only [List.map_cons, List.map_nil]
    rw [List.nodup_append]
    refine ⟨h, List.nodup_singleton _, ?_⟩
    intro a ha hb
    simp only [List.mem_singleton] at hb
    subst hb
    simp only [List.any_eq_true, not_exists, not_and] at hmem
    obtain ⟨p, hp, hpk⟩ := List.mem_map.mp ha
    exact absurd (beq_iff_eq.mpr hpk) (by simpa using hmem p hp)

theorem storeKeysNodup_filter (s : Store) (q : String × StoredBookingInfo → Bool)
    (h : storeKeysNodup s) : storeKeysNodup (s.filter q) :=
  List.Nodup.sublist (List.Sublist.map Prod.fst (List.filter_sublist s)) h

theorem get_remove_self (s : Store) (k : String) :
    get_round_trip_booking (remove_round_trip_booking s k) k = none := by
  unfold get_round_trip_booking remove_round_trip_booking
  have hfind : (s.filter (fun p => !(p.1 == k))).find? (fun p => p.1 == k) = none := by
    rw [List.find?_eq_none]
    intro p hp
    have := List.of_mem_filter hp
    simpa using this
  rw [hfind]
  rfl

theorem get_eq_none_of_not_mem_keys (s : Store) (k : String)
    (h : k ∉ s.map Prod.fst) : get_round_trip_booking s k = none := by
  unfold get_round_trip_booking
  have hfind : s.find? (fun p => p.1 == k) = none := by
    rw [List.find?_eq_none]
    intro p hp hbeq
    exact h (List.mem_map.mpr ⟨p, hp, beq_iff_eq.mp hbeq⟩)
  rw [hfind]
  rfl

theorem storeKeysNodup_store (s : Store) (k : String) (b : Booking)
    (fl : List Int) (now : Nat) (h : storeKeysNodup s) :
    storeKeysNodup (store_round_trip_booking s k b fl now) :=
  storeKeysNodup_dictInsert s k _ h

theorem processRT_store_nodup (env : Env) (slack : SlackEnv) (s : Store)
    (b : Booking) (h : storeKeysNodup s) :
    storeKeysNodup (process_round_trip_booking env slack s b).store := by
  unfold process_round_trip_booking
  by_cases h0 : (env.get_order_display_id b).getD "" = ""
  · simp only [if_pos h0]
    exact h
  · rw [if_neg h0]
    by_cases h1 : has_round_trip_booking s ((env.get_order_display_id b).getD "") = true
    · rw [if_pos h1]
      rcases hget : get_round_trip_booking s ((env.get_order_display_id b).getD "")
        with _ | info
      · simp only [hget]
        exact h
      · simp only [hget]
        rcases hex : env.get_flight_identifiers_from_api info.booking_data with e | exF
        · simp only [hex]
          exact storeKeysNodup_filter _ _ h
        · simp only [hex]
          rcases hcur : env.get_flight_identifiers_from_api b with e | curF
          · simp only [hcur]
            exact storeKeysNodup_filter _ _ h
          · simp only [hcur]
            rcases hsend : env.send_to_makersuite_api (transform_booking_data
                env.helpers info.booking_data
                (some (determine_flight_directions exF curF info.booking_data b).1)
                (some (determine_flight_directions exF curF info.booking_data b).2))
              with e | r
            · simp only [hsend]
              exact storeKeysNodup_filter _ _ h
            · simp only [hsend]
              by_cases hs : r.success = true
              · simp only [if_pos hs]
                exact storeKeysNodup_filter _ _ h
              · simp only [if_neg hs]
                exact storeKeysNodup_filter _ _ h
    · rw [if_neg h1]
      rcases hfl : env.get_flight_identifiers_from_api b with e | fl
      · simp only [hfl]
        exact storeKeysNodup_filter _ _ h
      · simp only [hfl]
        exact storeKeysNodup_store _ _ _ _ _ (storeKeysNodup_filter _ _ h)

/-! ### Claims C2, C4, C6 -/

/-- C2: for every order id the correlation store holds at most one
`PendingBooking` — the store's keys stay pairwise distinct under `store`,
`remove`, `sweep` (`get` does not mutate), and under a whole
`_process_round_trip_booking` call. -/
theorem pending_booking_unique_per_order (env : Env) (slack : SlackEnv)
    (s : Store) (k : String) (b : Booking) (fl : List Int) (now : Nat)
    (h : storeKeysNodup s) :
    storeKeysNodup (store_round_trip_booking s k b fl now) ∧
    storeKeysNodup (remove_round_trip_booking s k) ∧
    storeKeysNodup (cleanup_old_bookings s now) ∧
    storeKeysNodup (process_round_trip_booking env slack s b).store :=
  ⟨storeKeysNodup_store s k b fl now h,
   storeKeysNodup_filter s _ h,
   storeKeysNodup_filter s _ h,
   processRT_store_nodup env slack s b h⟩

theorem pending_booking_unique_per_order_witness :
    storeKeysNodup ord1Store ∧
    (storeKeysNodup (store_round_trip_booking ord1Store "ORD-1" secondLeg [202] 0) ∧
      storeKeysNodup (remove_round_trip_booking ord1Store "ORD-1") ∧
      storeKeysNodup (cleanup_old_bookings ord1Store 0) ∧
      storeKeysNodup (process_round_trip_booking ord1Env noSlack ord1Store secondLeg).store) :=
  ⟨by unfold storeKeysNodup; decide,
   pending_booking_unique_per_order ord1Env noSlack ord1Store "ORD-1" secondLeg
     [202] 0 (by unfold storeKeysNodup; decide)⟩

/-- C4: the sweep removes exactly the records whose age strictly exceeds
the retention window: a record first seen at `T` is gone after a sweep with
`now - T > ROUND_TRIP_CLEANUP_HOURS` and still present otherwise, so
records at exactly the boundary are kept. -/
theorem cleanup_removes_exactly_expired (s : Store) (k : String)
    (info : StoredBookingInfo) (now : Nat) (h : storeKeysNodup s)
    (hget : get_round_trip_booking s k = some info) :
    get_round_trip_booking (cleanup_old_bookings s now) k =
      (if now - info.first_received_at > cleanupMaxAgeSeconds then none
        else some info) := by
  induction s with
  | nil => simp [get_round_trip_booking] at hget
  | cons a t ih =>
    have hnodup_t : storeKeysNodup t := by
      unfold storeKeysNodup at h ⊢
      exact (List.nodup_cons.mp h).2
    by_cases hk : a.1 = k
    · have hinfo : a.2 = info := by
        unfold get_round_trip_booking at hget
        rw [List.find?_cons_of_pos _ (by simpa using hk)] at hget
        simpa using hget
      have hnot : k ∉ t.map Prod.fst := by
        unfold storeKeysNodup at h
        have := (List.nodup_cons.mp h).1
        simpa [hk] using this
      unfold cleanup_old_bookings
      rw [List.filter_cons]
      by_cases hexp : now - a.2.first_received_at > cleanupMaxAgeSeconds
      · have hcond : ¬ ((!decide (now - a.2.first_received_at > cleanupMaxAgeSeconds)) = true) := by
          rw [decide_eq_true hexp]
          simp
        rw [if_neg hcond]
        have hnone := get_eq_none_of_not_mem_keys (t.filter
            (fun p => !(decide (now - p.2.first_received_at > cleanupMaxAgeSeconds)))) k
          (fun hmem => hnot (by
            obtain ⟨p, hp, hpk⟩ := List.mem_map.mp hmem
            exact List.mem_map.mpr ⟨p, List.mem_of_mem_filter hp, hpk⟩))
        rw [hnone, if_pos (hinfo ▸ hexp)]
      · have hcond : (!decide (now - a.2.first_received_at > cleanupMaxAgeSeconds)) = true := by
          rw [decide_eq_false hexp]
          simp
        rw [if_pos hcond]
        unfold get_round_trip_booking
        rw [List.find?_cons_of_pos _ (by simpa using hk)]
        rw [if_neg (hinfo ▸ hexp)]
        simpa using hinfo
    · have hget_t : get_round_trip_booking t k = some info := by
        unfold get_round_trip_booking at hget
        rw [List.find?_cons_of_neg _ (by simpa using hk)] at hget
        exact hget
      have ihr := ih hnodup_t hget_t
      unfold cleanup_old_bookings at ihr ⊢
      rw [List.filter_cons]
      by_cases hexp : now - a.2.first_received_at > cleanupMaxAgeSeconds
      · have hcond : ¬ ((!decide (now - a.2.first_received_at > cleanupMaxAgeSeconds)) = true) := by
          rw [decide_eq_true hexp]
          simp
        rw [if_neg hcond]
        exact ihr
      · have hcond : (!decide (now - a.2.first_received_at > cleanupMaxAgeSeconds)) = true := by
          rw [decide_eq_false hexp]
          simp
        rw [if_pos hcond]
        unfold get_round_trip_booking at ihr ⊢
        rw [List.find?_cons_of_neg _ (by simpa using hk)]
        exact ihr

theorem cleanup_removes_exactly_expired_witness :
    (storeKeysNodup ord2Store ∧
      get_round_trip_booking ord2Store "ORD-2" = some ord2Info) ∧
    get_round_trip_booking (cleanup_old_bookings ord2Store (1000 + 3600 + 1)) "ORD-2" =
      (if 1000 + 3600 + 1 - ord2Info.first_received_at > cleanupMaxAgeSeconds then none
        else some ord2Info) :=
  ⟨⟨by unfold storeKeysNodup; decide, by decide⟩,
   cleanup_removes_exactly_expired ord2Store "ORD-2" ord2Info (1000 + 3600 + 1)
     (by unfold storeKeysNodup; decide) (by decide)⟩

/-- C6: a round-trip booking with no resolvable order id fails fast: the
handler returns the missing-order-id error, the store is untouched, and no
lookup or forward is attempted. -/
theorem rt_missing_order_id_fail_fast (env : Env) (slack : SlackEnv)
    (st : Store) (b : Booking)
    (h : (env.get_order_display_id b).getD "" = "") :
    (process_round_trip_booking env slack st b).result = .ok .missingOrderId ∧
    (process_round_trip_booking env slack st b).store = st ∧
    (process_round_trip_booking env slack st b).lookups = [] ∧
    (process_round_trip_booking env slack st b).forwards = [] := by
  unfold process_round_trip_booking
  simp [h]

theorem rt_missing_order_id_fail_fast_witness :
    ((trivialEnv.get_order_display_id emptyBooking).getD "" = "") ∧
    (process_round_trip_booking trivialEnv noSlack ord2Store emptyBooking).result
        = .ok .missingOrderId ∧
    (process_round_trip_booking trivialEnv noSlack ord2Store emptyBooking).store
        = ord2Store :=
  ⟨by decide,
   (rt_missing_order_id_fail_fast trivialEnv noSlack ord2Store emptyBooking (by decide)).1,
   (rt_missing_order_id_fail_fast trivialEnv noSlack ord2Store emptyBooking (by decide)).2.1⟩

/-! ### The merge branch: shared shape lemmas -/

theorem processRT_merge_shape (env : Env) (slack : SlackEnv) (st : Store)
    (b : Booking) (info : StoredBookingInfo)
    (hne : (env.get_order_display_id b).getD "" ≠ "")
    (hget : get_round_trip_booking st ((env.get_order_display_id b).getD "")
      = some info) :
    (process_round_trip_booking env slack st b).store
        = remove_round_trip_booking st ((env.get_order_display_id b).getD "") ∧
    (process_round_trip_booking env slack st b).lookups.head?
        = some info.booking_data ∧
    (process_round_trip_booking env slack st b).result ≠ .ok .storedAwaiting := by
  have hpend : has_round_trip_booking st ((env.get_order_display_id b).getD "") = true := by
    unfold has_round_trip_booking
    rw [hget]
    rfl
  unfold process_round_trip_booking
  rw [if_neg hne, if_pos hpend]
  simp only [hget]
  rcases hex : env.get_flight_identifiers_from_api info.booking_data with e | exF
  · simp only [hex]
    simp
  · simp only [hex]
    rcases hcur : env.get_flight_identifiers_from_api b with e | curF
    · simp only [hcur]
      simp
    · simp only [hcur]
      rcases hsend : env.send_to_makersuite_api (transform_booking_data
          env.helpers info.booking_data
          (some (determine_flight_directions exF curF info.booking_data b).1)
          (some (determine_flight_directions exF curF info.booking_data b).2))
        with e | r
      · simp only [hsend]
        simp
      · simp only [hsend]
        by_cases hs : r.success = true
        · simp only [if_pos hs]
          simp
        · simp only [if_neg hs]
          simp

theorem processRT_merge_forwards (env : Env) (slack : SlackEnv) (st : Store)
    (b : Booking) (info : StoredBookingInfo) (exF curF : List Int)
    (hne : (env.get_order_display_id b).getD "" ≠ "")
    (hget : get_round_trip_booking st ((env.get_order_display_id b).getD "")
      = some info)
    (hex : env.get_flight_identifiers_from_api info.booking_data = .ok exF)
    (hcur : env.get_flight_identifiers_from_api b = .ok curF) :
    (process_round_trip_booking env slack st b).lookups
        = [info.booking_data, b] ∧
    (process_round_trip_booking env slack st b).forwards
        = [transform_booking_data env.helpers info.booking_data
            (some (determine_flight_directions exF curF info.booking_data b).1)
            (some (determine_flight_directions exF curF info.booking_data b).2)] := by
  have hpend : has_round_trip_booking st ((env.get_order_display_id b).getD "") = true := by
    unfold has_round_trip_booking
    rw [hget]
    rfl
  unfold process_round_trip_booking
  rw [if_neg hne, if_pos hpend]
  simp only [hget, hex, hcur]
  rcases hsend : env.send_to_makersuite_api (transform_booking_data
      env.helpers info.booking_data
      (some (determine_flight_directions exF curF info.booking_data b).1)
      (some (determine_flight_directions exF curF info.booking_data b).2))
    with e | r
  · simp only [hsend]
    simp
  · simp only [hsend]
    by_cases hs : r.success = true
    · simp only [if_pos hs]
      simp
    · simp only [if_neg hs]
      simp

theorem determine_flight_directions_cases (exF curF : List Int)
    (e i : Booking) :
    determine_flight_directions exF curF e i = (exF, curF) ∨
    determine_flight_directions exF curF e i = (curF, exF) := by
  unfold determine_flight_directions
  split
  · exact Or.inr rfl
  · exact Or.inl rfl

/-! ### Claims C1, C5, C8, C10 -/

/-- C1: second-leg processing of an order with a pending record removes the
`PendingBooking` unconditionally — whether the forward succeeds, the forward
fails, or the flight-reference lookup or the forward raises — so a
subsequent `get` on that order id returns absent. -/
theorem rt_unconditional_cleanup (env : Env) (slack : SlackEnv) (st : Store)
    (b : Booking)
    (hne : (env.get_order_display_id b).getD "" ≠ "")
    (hpend : has_round_trip_booking st ((env.get_order_display_id b).getD "")
      = true) :
    get_round_trip_booking (process_round_trip_booking env slack st b).store
      ((env.get_order_display_id b).getD "") = none := by
  unfold has_round_trip_booking at hpend
  obtain ⟨info, hget⟩ := Option.isSome_iff_exists.mp hpend
  obtain ⟨hstore, -, -⟩ := processRT_merge_shape env slack st b info hne hget
  rw [hstore]
  exact get_remove_self st _

theorem rt_unconditional_cleanup_witness :
    ((ord1Env.get_order_display_id secondLeg).getD "" ≠ "" ∧
      has_round_trip_booking ord1Store
        ((ord1Env.get_order_display_id secondLeg).getD "") = true) ∧
    get_round_trip_booking
      (process_round_trip_booking ord1Env noSlack ord1Store secondLeg).store
      ((ord1Env.get_order_display_id secondLeg).getD "") = none :=
  ⟨⟨by decide, by decide⟩,
   rt_unconditional_cleanup ord1Env noSlack ord1Store secondLeg
     (by decide) (by decide)⟩

/-- C5 counterexample: order `ORD-1` has cached flights `[101]` stored with
its first leg, but the environment's lookup now resolves the stored leg to
`[999]`.  Processing the second leg invokes the external lookup on the
stored leg again (it appears in the lookup trace) and forwards the freshly
resolved `[999]`/`[202]`; the cached `[101]` is not what the merge uses,
refuting the claim that the stored leg's cached `derived_flight_refs` are
used and the lookup is not re-invoked. -/
theorem rt_merge_uses_fresh_lookup_counterexample :
    (process_round_trip_booking ord1Env noSlack ord1Store secondLeg).lookups
        = [firstLeg, secondLeg] ∧
    (process_round_trip_booking ord1Env noSlack ord1Store secondLeg).forwards.map
        (fun p => (p.DepartFlights, p.ReturnFlights)) = [([999], [202])] := by
  exact ⟨rfl, by rfl⟩

/-- C5 amended: during the `PENDING`-state merge the external lookup is
invoked for *both* legs — first the stored leg, then the incoming leg — and
the forwarded payload's flight lists are built from these fresh results via
the directional rule; the `derived_flight_refs` cached in the
`PendingBooking` are not consulted. -/
theorem rt_merge_resolves_both_legs (env : Env) (slack : SlackEnv)
    (st : Store) (b : Booking) (info : StoredBookingInfo) (exF curF : List Int)
    (hne : (env.get_order_display_id b).getD "" ≠ "")
    (hget : get_round_trip_booking st ((env.get_order_display_id b).getD "")
      = some info)
    (hex : env.get_flight_identifiers_from_api info.booking_data = .ok exF)
    (hcur : env.get_flight_identifiers_from_api b = .ok curF) :
    (process_round_trip_booking env slack st b).lookups
        = [info.booking_data, b] ∧
    ∀ p ∈ (process_round_trip_booking env slack st b).forwards,
      (p.DepartFlights, p.ReturnFlights)
        = determine_flight_directions exF curF info.booking_data b := by
  obtain ⟨hl, hf⟩ := processRT_merge_forwards env slack st b info exF curF
    hne hget hex hcur
  refine ⟨hl, ?_⟩
  intro p hp
  rw [hf] at hp
  simp only [List.mem_singleton] at hp
  subst hp
  rcases determine_flight_directions_cases exF curF info.booking_data b with hd | hd <;>
    rw [hd] <;> rfl

theorem rt_merge_resolves_both_legs_witness :
    ((ord1Env.get_order_display_id secondLeg).getD "" ≠ "" ∧
      get_round_trip_booking ord1Store
        ((ord1Env.get_order_display_id secondLeg).getD "")
        = some { booking_data := firstLeg, flights := [101], first_received_at := 0 } ∧
      ord1Env.get_flight_identifiers_from_api firstLeg = .ok [999] ∧
      ord1Env.get_flight_identifiers_from_api secondLeg = .ok [202]) ∧
    (process_round_trip_booking ord1Env noSlack ord1Store secondLeg).lookups
        = [firstLeg, secondLeg] :=
  ⟨⟨by decide, by decide, by rfl, by rfl⟩,
   (rt_merge_resolves_both_legs ord1Env noSlack ord1Store secondLeg
     { booking_data := firstLeg, flights := [101], first_received_at := 0 }
     [999] [202] (by decide) (by decide) (by rfl) (by rfl)).1⟩

/-- C8: the merged downstream request is built from the first-stored leg's
passenger and contact data — its `Passengers` list is the passenger
transformation of the stored leg's payload — and its depart/return flight
lists are the two legs' freshly resolved reference lists, one each way. -/
theorem rt_merge_payload_first_stored_leg (env : Env) (slack : SlackEnv)
    (st : Store) (b : Booking) (info : StoredBookingInfo) (exF curF : List Int)
    (hne : (env.get_order_display_id b).getD "" ≠ "")
    (hget : get_round_trip_booking st ((env.get_order_display_id b).getD "")
      = some info)
    (hex : env.get_flight_identifiers_from_api info.booking_data = .ok exF)
    (hcur : env.get_flight_identifiers_from_api b = .ok curF) :
    ∀ p ∈ (process_round_trip_booking env slack st b).forwards,
      p.Passengers = transform_passengers env.helpers info.booking_data ∧
      ((p.DepartFlights = exF ∧ p.ReturnFlights = curF) ∨
        (p.DepartFlights = curF ∧ p.ReturnFlights = exF)) := by
  obtain ⟨-, hf⟩ := processRT_merge_forwards env slack st b info exF curF
    hne hget hex hcur
  intro p hp
  rw [hf] at hp
  simp only [List.mem_singleton] at hp
  subst hp
  constructor
  · rfl
  · rcases determine_flight_directions_cases exF curF info.booking_data b with hd | hd
    · rw [hd]
      exact Or.inl ⟨rfl, rfl⟩
    · rw [hd]
      exact Or.inr ⟨rfl, rfl⟩

theorem rt_merge_payload_first_stored_leg_witness :
    ((ord1Env.get_order_display_id secondLeg).getD "" ≠ "" ∧
      get_round_trip_booking ord1Store
        ((ord1Env.get_order_display_id secondLeg).getD "")
        = some { booking_data := firstLeg, flights := [101], first_received_at := 0 }) ∧
    ∀ p ∈ (process_round_trip_booking ord1Env noSlack ord1Store secondLeg).forwards,
      p.Passengers = transform_passengers ord1Env.helpers firstLeg ∧
      ((p.DepartFlights = [999] ∧ p.ReturnFlights = [202]) ∨
        (p.DepartFlights = [202] ∧ p.ReturnFlights = [999])) :=
  ⟨⟨by decide, by decide⟩,
   rt_merge_payload_first_stored_leg ord1Env noSlack ord1Store secondLeg
     { booking_data := firstLeg, flights := [101], first_received_at := 0 }
     [999] [202] (by decide) (by decide) (by rfl) (by rfl)⟩

/-- C10: a pending record whose age already exceeds the retention window is
still matched when its second leg arrives — the existence check precedes
any sweep and the sweep runs only on the store-new-first-leg branch — so
the handler takes the merge branch (its first lookup is the stored leg, it
never answers `storedAwaiting`) and the record ends up removed, not kept or
re-stored. -/
theorem stale_pending_still_merged (env : Env) (slack : SlackEnv) (st : Store)
    (b : Booking) (info : StoredBookingInfo)
    (hne : (env.get_order_display_id b).getD "" ≠ "")
    (hget : get_round_trip_booking st ((env.get_order_display_id b).getD "")
      = some info)
    (hstale : env.now - info.first_received_at > cleanupMaxAgeSeconds) :
    (process_round_trip_booking env slack st b).lookups.head?
        = some info.booking_data ∧
    (process_round_trip_booking env slack st b).result ≠ .ok .storedAwaiting ∧
    get_round_trip_booking (process_round_trip_booking env slack st b).store
      ((env.get_order_display_id b).getD "") = none := by
  obtain ⟨hstore, hhead, hres⟩ := processRT_merge_shape env slack st b info hne hget
  refine ⟨hhead, hres, ?_⟩
  rw [hstore]
  exact get_remove_self st _

theorem stale_pending_still_merged_witness :
    ((staleEnv.get_order_display_id secondLeg).getD "" ≠ "" ∧
      get_round_trip_booking ord1Store
        ((staleEnv.get_order_display_id secondLeg).getD "")
        = some { booking_data := firstLeg, flights := [101], first_received_at := 0 } ∧
      staleEnv.now - (0 : Nat) > cleanupMaxAgeSeconds) ∧
    (process_round_trip_booking staleEnv noSlack ord1Store secondLeg).result
        ≠ .ok .storedAwaiting :=
  ⟨⟨by decide, by decide, by decide⟩,
   (stale_pending_still_merged staleEnv noSlack ord1Store secondLeg
     { booking_data := firstLeg, flights := [101], first_received_at := 0 }
     (by decide) (by decide) (by decide)).2.1⟩

/-! ### Claims C3, C7, C9 -/

/-- C3: a single-leg booking with a resolvable idempotency key, delivered
twice after a first successful forward, yields `duplicateSkipped` on the
second delivery, and the downstream forward is invoked exactly once across
both deliveries. -/
theorem single_trip_duplicate_second_delivery (env : Env) (slack : SlackEnv)
    (ledger : Ledger) (b : Booking) (bid : String) (fl : List Int)
    (r : ApiResult)
    (hbid : compute_single_booking_id b = some bid)
    (hnew : is_single_trip_processed ledger bid = false)
    (hfl : env.get_flight_identifiers_from_api b = .ok fl)
    (hsend : env.send_to_makersuite_api
      (transform_booking_data env.helpers b (some fl) none) = .ok r)
    (hsucc : r.success = true) :
    (process_single_trip_booking env slack
        (process_single_trip_booking env slack ledger b).ledger b).result
      = .ok .duplicateSkipped ∧
    (process_single_trip_booking env slack ledger b).forwards.length +
      (process_single_trip_booking env slack
        (process_single_trip_booking env slack ledger b).ledger b).forwards.length
      = 1 := by
  have h1 : (process_single_trip_booking env slack ledger b).ledger
        = bid :: ledger ∧
      (process_single_trip_booking env slack ledger b).forwards.length = 1 := by
    unfold process_single_trip_booking single_trip_forward_path
    rw [hbid]
    simp [hnew, hfl, hsend, hsucc, mark_single_trip_processed]
  obtain ⟨hl1, hf1⟩ := h1
  have h2 : (process_single_trip_booking env slack (bid :: ledger) b).result
        = .ok .duplicateSkipped ∧
      (process_single_trip_booking env slack (bid :: ledger) b).forwards = [] := by
    unfold process_single_trip_booking
    rw [hbid]
    simp [is_single_trip_processed]
  rw [hl1, hf1, h2.2]
  exact ⟨h2.1, rfl⟩

theorem single_trip_duplicate_second_delivery_witness :
    (compute_single_booking_id singleBooking
        = some "single_5_2024-03-03T09:00:00" ∧
      is_single_trip_processed [] "single_5_2024-03-03T09:00:00" = false ∧
      singleEnv.get_flight_identifiers_from_api singleBooking = .ok [77] ∧
      singleEnv.send_to_makersuite_api (transform_booking_data
        singleEnv.helpers singleBooking (some [77]) none) = .ok okApiResult ∧
      okApiResult.success = true) ∧
    ((process_single_trip_booking singleEnv noSlack
        (process_single_trip_booking singleEnv noSlack [] singleBooking).ledger
        singleBooking).result = .ok .duplicateSkipped ∧
      (process_single_trip_booking singleEnv noSlack [] singleBooking).forwards.length +
        (process_single_trip_booking singleEnv noSlack
          (process_single_trip_booking singleEnv noSlack [] singleBooking).ledger
          singleBooking).forwards.length = 1) :=
  ⟨⟨by rfl, by rfl, by rfl, by rfl, by rfl⟩,
   single_trip_duplicate_second_delivery singleEnv noSlack []
     singleBooking "single_5_2024-03-03T09:00:00" [77] okApiResult
     (by rfl) (by rfl) (by rfl) (by rfl) (by rfl)⟩

/-- C7: for a single-leg booking with a resolvable, not-yet-marked
idempotency key, the key ends up marked in the ledger exactly when the
downstream forward reported success — never before the forward, and never
when the lookup or the forward fails. -/
theorem single_trip_marks_only_on_success (env : Env) (slack : SlackEnv)
    (ledger : Ledger) (b : Booking) (bid : String)
    (hbid : compute_single_booking_id b = some bid)
    (hnew : is_single_trip_processed ledger bid = false) :
    (is_single_trip_processed
        (process_single_trip_booking env slack ledger b).ledger bid = true
      ↔ ∃ fl r, env.get_flight_identifiers_from_api b = .ok fl ∧
          env.send_to_makersuite_api
            (transform_booking_data env.helpers b (some fl) none) = .ok r ∧
          r.success = true) := by
  unfold process_single_trip_booking single_trip_forward_path
  rw [hbid]
  rcases hfl : env.get_flight_identifiers_from_api b with e | fl
  · simp [hnew, hfl]
  · rcases hsend : env.send_to_makersuite_api
        (transform_booking_data env.helpers b (some fl) none) with e | r
    · simp [hnew, hfl, hsend]
    · by_cases hs : r.success = true
      · have hmem : ¬ bid ∈ ledger := by
          simpa [is_single_trip_processed] using hnew
        simp [hnew, hmem, hfl, hsend, hs, mark_single_trip_processed,
          is_single_trip_processed]
      · simp [hnew, hfl, hsend, hs]

theorem single_trip_marks_only_on_success_witness :
    (compute_single_booking_id singleBooking
        = some "single_5_2024-03-03T09:00:00" ∧
      is_single_trip_processed [] "single_5_2024-03-03T09:00:00" = false) ∧
    (is_single_trip_processed
        (process_single_trip_booking singleEnv noSlack [] singleBooking).ledger
        "single_5_2024-03-03T09:00:00" = true
      ↔ ∃ fl r, singleEnv.get_flight_identifiers_from_api singleBooking = .ok fl ∧
          singleEnv.send_to_makersuite_api
            (transform_booking_data singleEnv.helpers singleBooking (some fl) none)
            = .ok r ∧
          r.success = true) :=
  ⟨⟨by rfl, by rfl⟩,
   single_trip_marks_only_on_success singleEnv noSlack [] singleBooking
     "single_5_2024-03-03T09:00:00" (by rfl) (by rfl)⟩

/-- C9: the outcome of the Slack delivery — unconfigured webhook, non-200
response, timeout or any exception, all of which only change the boolean
`send_slack_notification` returns — never affects the handler result, the
correlation store, or the idempotency ledger: both handlers produce the
same result and state under any two Slack environments. -/
theorem notification_failure_never_affects_outcome (env : Env)
    (s1 s2 : SlackEnv) (st : Store) (ledger : Ledger) (b : Booking) :
    ((process_round_trip_booking env s1 st b).result
        = (process_round_trip_booking env s2 st b).result ∧
      (process_round_trip_booking env s1 st b).store
        = (process_round_trip_booking env s2 st b).store) ∧
    ((process_single_trip_booking env s1 ledger b).result
        = (process_single_trip_booking env s2 ledger b).result ∧
      (process_single_trip_booking env s1 ledger b).ledger
        = (process_single_trip_booking env s2 ledger b).ledger) := by
  constructor
  · unfold process_round_trip_booking
    by_cases h0 : (env.get_order_display_id b).getD "" = ""
    · simp [h0]
    · simp only [if_neg h0]
      by_cases h1 : has_round_trip_booking st
          ((env.get_order_display_id b).getD "") = true
      · simp only [if_pos h1]
        rcases hget : get_round_trip_booking st
            ((env.get_order_display_id b).getD "") with _ | info
        · simp [hget]
        · simp only [hget]
          rcases hex : env.get_flight_identifiers_from_api info.booking_data
            with e | exF
          · simp [hex]
          · simp only [hex]
            rcases hcur : env.get_flight_identifiers_from_api b with e | curF
            · simp [hcur]
            · simp only [hcur]
              rcases hsend : env.send_to_makersuite_api (transform_booking_data
                  env.helpers info.booking_data
                  (some (determine_flight_directions exF curF info.booking_data b).1)
                  (some (determine_flight_directions exF curF info.booking_data b).2))
                with e | r
              · simp [hsend]
              · simp only [hsend]
                by_cases hs : r.success = true
                · simp [if_pos hs]
                · simp [if_neg hs]
      · simp only [if_neg h1]
        rcases hfl : env.get_flight_identifiers_from_api b with e | fl
        · simp [hfl]
        · simp [hfl]
  · unfold process_single_trip_booking single_trip_forward_path
    rcases hbid : compute_single_booking_id b with _ | bid
    · rcases hfl : env.get_flight_identifiers_from_api b with e | fl
      · simp [hfl]
      · rcases hsend : env.send_to_makersuite_api
            (transform_booking_data env.helpers b (some fl) none) with e | r
        · simp [hfl, hsend]
        · by_cases hs : r.success = true
          · simp [hfl, hsend, hs]
          · simp [hfl, hsend, hs]
    · cases hdup : is_single_trip_processed ledger bid
      · rcases hfl : env.get_flight_identifiers_from_api b with e | fl
        · simp [hdup, hfl]
        · rcases hsend : env.send_to_makersuite_api
              (transform_booking_data env.helpers b (some fl) none) with e | r
          · simp [hdup, hfl, hsend]
          · by_cases hs : r.success = true
            · simp [hdup, hfl, hsend, hs]
            · simp [hdup, hfl, hsend, hs]
      · simp [hdup]

end Airmax
